import Mathlib

/-!
Shallow embedding of the openweather-python client library.

Embedded sources:
* `src/openweather_python/models.py` — the response model dataclasses and
  `CurrentWeather.from_api_response` (the JSON-to-domain translator);
* `src/py_openweathermap/client.py` — `OpenWeatherMapClient.__init__`,
  `_make_request` and `get_current_weather_by_coords`;
* `src/py_openweathermap/exceptions.py` — the error taxonomy;
* `src/py-openweathermap/constants.py` — the configuration constants.

Python dictionaries become association lists, Python exceptions become an
`Except` monad over an explicit error inductive (one constructor per exception
class that can be raised on the embedded paths, plus the Python builtins
KeyError / TypeError / AttributeError that dictionary subscripting and
attribute access can raise), and the single HTTP round trip becomes an
explicit `HttpOutcome` parameter describing what the transport returned.
-/

namespace Owm

/-- A parsed JSON value, as handed around by the Python code. -/
inductive Json where
  | num (v : Rat)
  | str (s : String)
  | bool (b : Bool)
  | null
  | arr (items : List Json)
  | obj (fields : List (String × Json))

/-- Errors that the embedded Python paths can raise.  `keyError`,
`typeError` and `attributeError` are the Python builtins; the remaining
constructors are the classes of `src/py_openweathermap/exceptions.py`
that the embedded code actually raises (plus the base class, which
`_make_request` raises directly). -/
inductive PyErr where
  | keyError (key : String)
  | typeError
  | attributeError
  | pyOpenWeatherMapError (msg : String)
  | authenticationError (msg : String)
  | wrongLatitudeOrLongitude (msg : String)
  | notFoundError (msg : String)
  | rateLimitError (msg : String)
  | invalidParameterError (msg : String)
  | apiError (msg : String)
  deriving DecidableEq

/-- True on the constructors that model classes of
`src/py_openweathermap/exceptions.py`, false on the Python builtins. -/
def PyErr.isPackageError : PyErr → Bool
  | .keyError _ => false
  | .typeError => false
  | .attributeError => false
  | _ => true

/-- Python `d[k]` on a dict: the value, or KeyError. -/
def dictGet (d : List (String × Json)) (k : String) : Except PyErr Json :=
  match d.lookup k with
  | some v => .ok v
  | none => .error (.keyError k)

/-- Python `j[k]` where `j` is a JSON value: dict lookup when `j` is an
object, TypeError otherwise (string subscripts are invalid for every other
JSON value). -/
def Json.getKey : Json → String → Except PyErr Json
  | .obj fields, k => dictGet fields k
  | _, _ => .error .typeError

/-- Python `j.get(k)`: `dict.get` when `j` is an object (absent key gives
None), AttributeError otherwise (no `get` attribute). -/
def Json.dictGetOpt : Json → String → Except PyErr (Option Json)
  | .obj fields, k => .ok (fields.lookup k)
  | _, _ => .error .attributeError

/-- Python `for w in j`: list items, dict keys, the characters of a string,
TypeError for the non-iterable JSON values. -/
def pyIter : Json → Except PyErr (List Json)
  | .arr items => .ok items
  | .obj fields => .ok (fields.map (fun kv => Json.str kv.1))
  | .str s => .ok (s.toList.map (fun ch => Json.str (String.singleton ch)))
  | _ => .error .typeError

/-- Python `str(x)` as used by the f-strings of `client.py`.  Modelled
exactly for strings — the only case the service message contract produces;
the other JSON values are rendered approximately. -/
def pyStr : Json → String
  | .str s => s
  | .num q => toString q
  | .bool b => if b then "True" else "False"
  | .null => "None"
  | .arr _ => "<list>"
  | .obj _ => "<dict>"

/-! ## Response model (`src/openweather_python/models.py`)

The dataclasses perform no runtime type checking, so every leaf field holds
whatever JSON value sat at its path in the document. -/

/-- `Coordinates` dataclass. -/
structure Coordinates where
  lat : Json
  lon : Json

/-- `Weather` dataclass (one weather condition). -/
structure Weather where
  id : Json
  main : Json
  description : Json
  icon : Json

/-- `Main` dataclass. -/
structure Main where
  temp : Json
  feels_like : Json
  temp_min : Json
  temp_max : Json
  pressure : Json
  humidity : Json
  sea_level : Json
  grnd_level : Json

/-- `Wind` dataclass.  The `gust` field is declared `float`, not optional. -/
structure Wind where
  speed : Json
  deg : Json
  gust : Json

/-- `Clouds` dataclass. -/
structure Clouds where
  all : Json

/-- `Rain` dataclass; `one_h` defaults to None. -/
structure Rain where
  one_h : Option Json

/-- `Snow` dataclass; `one_h` defaults to None. -/
structure Snow where
  one_h : Option Json

/-- `Sys` dataclass. -/
structure Sys where
  country : Json
  sunrise : Json
  sunset : Json

/-- `CurrentWeather` dataclass (aggregate root). -/
structure CurrentWeather where
  coord : Coordinates
  weather : List Weather
  base : Json
  main : Main
  visibility : Json
  wind : Wind
  clouds : Clouds
  dt : Json
  sys : Sys
  timezone : Json
  id : Json
  name : Json
  cod : Json
  rain : Option Rain
  snow : Option Snow

/-- Parsing of one entry of the `weather` list inside
`CurrentWeather.from_api_response`. -/
def parseWeatherItem (w : Json) : Except PyErr Weather := do
  let i ← w.getKey "id"
  let m ← w.getKey "main"
  let d ← w.getKey "description"
  let ic ← w.getKey "icon"
  pure { id := i, main := m, description := d, icon := ic }

/-- `CurrentWeather.from_api_response(data)` of
`src/openweather_python/models.py`, field accesses in source order.  Note
that the snow branch reads `data["rain"]`, exactly as the source does. -/
def from_api_response (data : List (String × Json)) : Except PyErr CurrentWeather := do
  let coordObj ← dictGet data "coord"
  let lat ← coordObj.getKey "lat"
  let lon ← coordObj.getKey "lon"
  let coord : Coordinates := { lat := lat, lon := lon }
  let weatherVal ← dictGet data "weather"
  let items ← pyIter weatherVal
  let weather_list ← items.mapM parseWeatherItem
  let mainObj ← dictGet data "main"
  let temp ← mainObj.getKey "temp"
  let feels_like ← mainObj.getKey "feels_like"
  let temp_min ← mainObj.getKey "temp_min"
  let temp_max ← mainObj.getKey "temp_max"
  let pressure ← mainObj.getKey "pressure"
  let humidity ← mainObj.getKey "humidity"
  let sea_level ← mainObj.getKey "sea_level"
  let grnd_level ← mainObj.getKey "grnd_level"
  let main : Main :=
    { temp := temp, feels_like := feels_like, temp_min := temp_min,
      temp_max := temp_max, pressure := pressure, humidity := humidity,
      sea_level := sea_level, grnd_level := grnd_level }
  let windObj ← dictGet data "wind"
  let speed ← windObj.getKey "speed"
  let deg ← windObj.getKey "deg"
  let gust ← windObj.getKey "gust"
  let wind : Wind := { speed := speed, deg := deg, gust := gust }
  let cloudsObj ← dictGet data "clouds"
  let cloudsAll ← cloudsObj.getKey "all"
  let clouds : Clouds := { all := cloudsAll }
  let rain : Option Rain ←
    if (data.lookup "rain").isSome then do
      let block ← dictGet data "rain"
      let oneH ← block.dictGetOpt "1h"
      pure (some { one_h := oneH })
    else pure none
  let snow : Option Snow ←
    if (data.lookup "snow").isSome then do
      let block ← dictGet data "rain"
      let oneH ← block.dictGetOpt "1h"
      pure (some { one_h := oneH })
    else pure none
  let sysObj ← dictGet data "sys"
  let country ← sysObj.getKey "country"
  let sunrise ← sysObj.getKey "sunrise"
  let sunset ← sysObj.getKey "sunset"
  let sys : Sys := { country := country, sunrise := sunrise, sunset := sunset }
  let base ← dictGet data "base"
  let visibility ← dictGet data "visibility"
  let dt ← dictGet data "dt"
  let timezone ← dictGet data "timezone"
  let cityId ← dictGet data "id"
  let name ← dictGet data "name"
  let cod ← dictGet data "cod"
  pure
    { coord := coord, weather := weather_list, base := base, main := main,
      visibility := visibility, wind := wind, clouds := clouds, dt := dt, sys := sys,
      timezone := timezone, id := cityId, name := name, cod := cod,
      rain := rain, snow := snow }

/-! ## Client (`src/py_openweathermap/client.py`, constants from
`src/py-openweathermap/constants.py`) -/

def BASE_URL : String := "https://api.openweathermap.org/data/2.5"

def CURRENT_WEATHER_ENDPOINT : String := "/weather"

def DEFAULT_TIMEOUT : Int := 10

def DEFAULT_UNITS : String := "metric"

def VALID_UNITS : List String := ["metric", "imperial", "standard"]

/-- The configuration an `OpenWeatherMapClient` stores after `__init__`. -/
structure Client where
  api_key : String
  units : String
  timeout : Int
  base_url : String

/-- A query-string value (`requests` receives floats and strings here). -/
inductive PyVal where
  | num (v : Rat)
  | str (s : String)

/-- The single `requests.get(url=..., params=..., timeout=...)` call a
request issues. -/
structure Request where
  url : String
  params : List (String × PyVal)
  timeout : Int

/-- What the transport returned for the one GET: an HTTP response whose
body either parsed as JSON or failed to (`response.json()` raising), a
timeout, or another transport failure. -/
inductive HttpOutcome where
  | response (status : Nat) (body : Except String Json)
  | timeout
  | requestException (details : String)

/-- Python truthiness of an optional string (None and the empty string are
falsy). -/
def truthyOpt : Option String → Bool
  | some s => !s.isEmpty
  | none => false

/-- Python `a or b` on optional strings. -/
def pyOrStr (a b : Option String) : Option String :=
  match a with
  | some s => if s.isEmpty then b else some s
  | none => b

/-- `OpenWeatherMapClient.__init__(api_key, units, timeout)`; `env_api_key`
is the value of the OPENWEATHERMAP_API_KEY environment variable, read by
`os.getenv` as the fallback channel. -/
def clientInit (api_key env_api_key : Option String) (units : String) (timeout : Int) :
    Except PyErr Client :=
  let resolved := pyOrStr api_key env_api_key
  if truthyOpt resolved then
    if units ∈ VALID_UNITS then
      .ok { api_key := resolved.getD "", units := units, timeout := timeout,
            base_url := BASE_URL }
    else
      .error (.invalidParameterError
        ("Units must be one of " ++ toString VALID_UNITS ++ ", got \x27" ++ units ++ "\x27"))
  else
    .error (.authenticationError
      ("API key is required. Provide via parameter or "
        ++ "OPENWEATHERMAP_API_KEY environment variable"))

/-- `OpenWeatherMapClient._make_request(endpoint, params)`.  Returns the
`requests.get` call it issues together with the value returned or the
exception raised.  A 200 body that fails to parse raises
`requests.exceptions.JSONDecodeError`, a `RequestException` subclass, so the
outer handler turns it into the `Request failed:` message; in the non-200
branch a `json()` failure (or a `.get` on a non-dict body) is swallowed by
the bare `except:` and the message falls back to `HTTP <status>`. -/
def make_request (c : Client) (endpoint : String) (params : List (String × PyVal))
    (outcome : HttpOutcome) : Request × Except PyErr Json :=
  let fullParams := params ++ [("appid", PyVal.str c.api_key)]
  let url := BASE_URL ++ endpoint
  let req : Request := { url := url, params := fullParams, timeout := c.timeout }
  let res : Except PyErr Json :=
    match outcome with
    | .timeout =>
      .error (.pyOpenWeatherMapError ("Request timed out after " ++ toString c.timeout ++ "s"))
    | .requestException details =>
      .error (.pyOpenWeatherMapError ("Request failed: " ++ details))
    | .response status body =>
      if status = 200 then
        match body with
        | .ok j => .ok j
        | .error details => .error (.pyOpenWeatherMapError ("Request failed: " ++ details))
      else if status = 401 then .error (.authenticationError "Invalid API key")
      else if status = 404 then .error (.notFoundError "Location not found")
      else if status = 429 then .error (.rateLimitError "API rate limit exceeded")
      else
        let error_msg : String :=
          match body with
          | .ok (.obj fields) =>
            match fields.lookup "message" with
            | some m => pyStr m
            | none => "Unknown error"
          | .ok _ => "HTTP " ++ toString status
          | .error _ => "HTTP " ++ toString status
        .error (.pyOpenWeatherMapError ("API error: " ++ error_msg))
  (req, res)

/-- Everything one call of `get_current_weather_by_coords` produces: the
request it issued, its returned value or raised exception, and the client
object afterwards. -/
structure CallResult where
  request : Request
  result : Except PyErr CurrentWeather
  client : Client

/-- `OpenWeatherMapClient.get_current_weather_by_coords(lat, lon)`.  The
method builds the query parameters, calls `_make_request` and hands a dict
body to `CurrentWeather.from_api_response`; subscripting a non-dict body
there raises TypeError on the first access. -/
def get_current_weather_by_coords (c : Client) (lat lon : Rat) (outcome : HttpOutcome) :
    CallResult :=
  let params := [("lat", PyVal.num lat), ("lon", PyVal.num lon), ("units", PyVal.str c.units)]
  let reqres := make_request c CURRENT_WEATHER_ENDPOINT params outcome
  let result : Except PyErr CurrentWeather :=
    match reqres.2 with
    | .error e => .error e
    | .ok (.obj fields) => from_api_response fields
    | .ok _ => .error .typeError
  { request := reqres.1, result := result, client := c }

/-! ## Concrete documents (the London fixture of `src/tests/test_client.py`) -/

def coordFields : List (String × Json) := [("lat", .num 51.51), ("lon", .num (-0.13))]

def weatherItem : Json := .obj [("id", .num 300), ("main", .str "Drizzle"),
  ("description", .str "light intensity drizzle"), ("icon", .str "09d")]

def mainFields : List (String × Json) := [("temp", .num 280.32), ("feels_like", .num 278.43),
  ("temp_min", .num 279.15), ("temp_max", .num 281.15), ("pressure", .num 1012),
  ("humidity", .num 81), ("sea_level", .num 1012), ("grnd_level", .num 1010)]

def windFields : List (String × Json) := [("speed", .num 4.1), ("deg", .num 80),
  ("gust", .num 6.2)]

def sysFields : List (String × Json) := [("country", .str "GB"),
  ("sunrise", .num 1485762037), ("sunset", .num 1485794875)]

def cloudsFields : List (String × Json) := [("all", .num 90)]

/-- The London document with a choice of every nested block and of the
weather value, in the key order of the test fixture. -/
def docWithAllBlocks (coordB mainB windB cloudsB sysB : List (String × Json))
    (weatherVal : Json) : List (String × Json) :=
  [("coord", .obj coordB), ("weather", weatherVal), ("base", .str "stations"),
   ("main", .obj mainB), ("visibility", .num 10000), ("wind", .obj windB),
   ("clouds", .obj cloudsB), ("dt", .num 1485789600), ("sys", .obj sysB),
   ("timezone", .num 0), ("id", .num 2643743), ("name", .str "London"), ("cod", .num 200)]

/-- The London document with a choice of main block, wind block and weather
value. -/
def docWithBlocks (mainB windB : List (String × Json)) (weatherVal : Json) :
    List (String × Json) :=
  docWithAllBlocks coordFields mainB windB cloudsFields sysFields weatherVal

/-- The valid London document, optionally extended with extra top-level
keys (rain, snow). -/
def validDocWith (extra : List (String × Json)) : List (String × Json) :=
  docWithBlocks mainFields windFields (.arr [weatherItem]) ++ extra

/-- A client as the tests construct it: api_key "test-api-key", defaults
otherwise. -/
def testClient : Client :=
  { api_key := "test-api-key", units := DEFAULT_UNITS, timeout := DEFAULT_TIMEOUT,
    base_url := BASE_URL }

/-- Success test on `Except`. -/
def exceptIsOk : Except PyErr CurrentWeather → Bool
  | .ok _ => true
  | .error _ => false

/-- Success test for client construction. -/
def initIsOk : Except PyErr Client → Bool
  | .ok _ => true
  | .error _ => false

/-- Does client construction fail with `AuthenticationError`? -/
def initIsAuthError : Except PyErr Client → Bool
  | .error (.authenticationError _) => true
  | _ => false

/-- The `snow` field of a successful translation. -/
def resultSnow : Except PyErr CurrentWeather → Option (Option Snow)
  | .ok w => some w.snow
  | .error _ => none

/-- The `rain` field of a successful translation. -/
def resultRain : Except PyErr CurrentWeather → Option (Option Rain)
  | .ok w => some w.rain
  | .error _ => none

/-- Drop one key of a Python dict (to build documents with a field missing). -/
def removeKey (d : List (String × Json)) (k : String) : List (String × Json) :=
  d.filter (fun kv => !(kv.1 == k))

/-- The top-level keys `from_api_response` reads unconditionally. -/
def requiredTopLevelKeys : List String :=
  ["coord", "weather", "base", "main", "visibility", "wind", "clouds", "dt", "sys",
   "timezone", "id", "name", "cod"]

/-- The keys read unconditionally inside the `coord` block. -/
def requiredCoordKeys : List String := ["lat", "lon"]

/-- The keys read unconditionally inside the `main` block. -/
def requiredMainKeys : List String :=
  ["temp", "feels_like", "temp_min", "temp_max", "pressure", "humidity", "sea_level",
   "grnd_level"]

/-- The keys read unconditionally inside the `wind` block (gust included). -/
def requiredWindKeys : List String := ["speed", "deg", "gust"]

/-- The keys read unconditionally inside the `sys` block. -/
def requiredSysKeys : List String := ["country", "sunrise", "sunset"]

/-! ## Theorems -/

/-- Python `or` of two optional strings is truthy exactly when one of them
is. -/
theorem truthyOpt_pyOrStr (a b : Option String) :
    truthyOpt (pyOrStr a b) = (truthyOpt a || truthyOpt b) := by
  cases a with
  | none => rfl
  | some s =>
    by_cases h : s.isEmpty
    · simp [pyOrStr, truthyOpt, h]
    · simp [pyOrStr, truthyOpt, h]

/-- C1: the client performs no coordinate validation.  With latitude 91
(outside [-90, 90]) the operation still issues the GET — the request carries
lat=91 in its query parameters — and, when the service answers 200 with a
valid body, the call succeeds instead of failing with a coordinate-range
error.  `WrongLatitudeOrLongitude` is never raised on this path. -/
theorem C1_outofrange_coordinates_sent_to_network :
    (get_current_weather_by_coords testClient 91 0
        (.response 200 (.ok (.obj (validDocWith []))))).request
      = { url := BASE_URL ++ CURRENT_WEATHER_ENDPOINT,
          params := [("lat", .num 91), ("lon", .num 0), ("units", .str "metric"),
                     ("appid", .str "test-api-key")],
          timeout := 10 }
    ∧ exceptIsOk (get_current_weather_by_coords testClient 91 0
        (.response 200 (.ok (.obj (validDocWith []))))).result = true :=
  ⟨rfl, rfl⟩

/-- C2: the snow branch of `from_api_response` reads `data["rain"]`, not
`data["snow"]`.  On a valid document carrying a snow block but no rain
block the translation raises KeyError("rain"); when both blocks are present
the returned snow amount is the rain block value (1), not the snow block
value (2.5). -/
theorem C2_snow_amount_read_from_rain_block :
    from_api_response (validDocWith [("snow", Json.obj [("1h", Json.num 2.5)])])
      = .error (.keyError "rain")
    ∧ resultSnow (from_api_response (validDocWith
        [("rain", Json.obj [("1h", Json.num 1)]), ("snow", Json.obj [("1h", Json.num 2.5)])]))
      = some (some { one_h := some (Json.num 1) })
    ∧ resultRain (from_api_response (validDocWith
        [("rain", Json.obj [("1h", Json.num 1)]), ("snow", Json.obj [("1h", Json.num 2.5)])]))
      = some (some { one_h := some (Json.num 1) }) :=
  ⟨rfl, rfl, rfl⟩

/-- C3 counterexample: on a document missing the required `visibility`
field the translation fails with the Python builtin KeyError, which is not
an error class of the package — no `MalformedResponseError` exists anywhere
in the code. -/
theorem C3_counterexample_failure_is_bare_keyerror :
    from_api_response (removeKey (validDocWith []) "visibility")
      = .error (.keyError "visibility")
    ∧ PyErr.isPackageError (.keyError "visibility") = false :=
  ⟨rfl, rfl⟩

/-- C3 amended: removing any required key — top level, or inside the coord,
main, wind, clouds or sys blocks — makes `from_api_response` fail with
KeyError naming that key, so no partially populated object is returned. -/
theorem C3_missing_required_field_raises_keyerror :
    (∀ k ∈ requiredTopLevelKeys,
      from_api_response (removeKey (validDocWith []) k) = .error (.keyError k))
    ∧ (∀ k ∈ requiredCoordKeys,
      from_api_response (docWithAllBlocks (removeKey coordFields k) mainFields windFields
        cloudsFields sysFields (.arr [weatherItem])) = .error (.keyError k))
    ∧ (∀ k ∈ requiredMainKeys,
      from_api_response (docWithAllBlocks coordFields (removeKey mainFields k) windFields
        cloudsFields sysFields (.arr [weatherItem])) = .error (.keyError k))
    ∧ (∀ k ∈ requiredWindKeys,
      from_api_response (docWithAllBlocks coordFields mainFields (removeKey windFields k)
        cloudsFields sysFields (.arr [weatherItem])) = .error (.keyError k))
    ∧ from_api_response (docWithAllBlocks coordFields mainFields windFields
        (removeKey cloudsFields "all") sysFields (.arr [weatherItem]))
        = .error (.keyError "all")
    ∧ (∀ k ∈ requiredSysKeys,
      from_api_response (docWithAllBlocks coordFields mainFields windFields
        cloudsFields (removeKey sysFields k) (.arr [weatherItem])) = .error (.keyError k)) := by
  refine ⟨?_, ?_, ?_, ?_, rfl, ?_⟩ <;> intro k hk <;> fin_cases hk <;> rfl

/-- C3 witness: the missing-`name` instance of the amended statement. -/
theorem C3_missing_required_field_raises_keyerror_witness :
    "name" ∈ requiredTopLevelKeys
    ∧ from_api_response (removeKey (validDocWith []) "name") = .error (.keyError "name") :=
  ⟨by decide, C3_missing_required_field_raises_keyerror.1 "name" (by decide)⟩

/-- C4 counterexample: on a document whose `weather` field is the empty
array the translation succeeds — it does not fail. -/
theorem C4_counterexample_empty_weather_accepted :
    exceptIsOk (from_api_response (docWithBlocks mainFields windFields (.arr []))) = true :=
  rfl

/-- C4 amended: an empty `weather` array translates to a `CurrentWeather`
whose conditions list is empty; no non-emptiness check exists. -/
theorem C4_empty_weather_yields_empty_conditions :
    from_api_response (docWithBlocks mainFields windFields (.arr []))
      = .ok
        { coord := { lat := .num 51.51, lon := .num (-0.13) },
          weather := [],
          base := .str "stations",
          main := { temp := .num 280.32, feels_like := .num 278.43, temp_min := .num 279.15,
                    temp_max := .num 281.15, pressure := .num 1012, humidity := .num 81,
                    sea_level := .num 1012, grnd_level := .num 1010 },
          visibility := .num 10000,
          wind := { speed := .num 4.1, deg := .num 80, gust := .num 6.2 },
          clouds := { all := .num 90 },
          dt := .num 1485789600,
          sys := { country := .str "GB", sunrise := .num 1485762037,
                   sunset := .num 1485794875 },
          timezone := .num 0,
          id := .num 2643743,
          name := .str "London",
          cod := .num 200,
          rain := none,
          snow := none } :=
  rfl

/-- C5 counterexample: a 500 response whose body is a JSON object without a
`message` field yields the message "API error: Unknown error", not the
claimed "API error: HTTP 500". -/
theorem C5_counterexample_json_without_message :
    (make_request testClient "/weather" [] (.response 500 (.ok (.obj [])))).2
      = .error (.pyOpenWeatherMapError "API error: Unknown error")
    ∧ "API error: Unknown error" ≠ "API error: HTTP 500" :=
  ⟨rfl, by decide⟩

/-- C5 amended: for a non-200 status other than 401/404/429 the request
fails with the package base error `PyOpenWeatherMapError` (the specific
`APIError` class exists but is never raised), whose message is
"API error: " followed by the server message when the body is a JSON object
containing one, by "Unknown error" when the body is a JSON object without
one, and by "HTTP <status>" when the body is non-JSON or a non-object JSON
value. -/
theorem C5_other_status_api_error (c : Client) (endpoint : String)
    (params : List (String × PyVal)) (status : Nat)
    (h200 : status ≠ 200) (h401 : status ≠ 401) (h404 : status ≠ 404) (h429 : status ≠ 429) :
    (∀ fields m, fields.lookup "message" = some (Json.str m) →
      (make_request c endpoint params (.response status (.ok (.obj fields)))).2
        = .error (.pyOpenWeatherMapError ("API error: " ++ m)))
    ∧ (∀ fields, fields.lookup "message" = none →
      (make_request c endpoint params (.response status (.ok (.obj fields)))).2
        = .error (.pyOpenWeatherMapError "API error: Unknown error"))
    ∧ (∀ j, (∀ fields, j ≠ Json.obj fields) →
      (make_request c endpoint params (.response status (.ok j))).2
        = .error (.pyOpenWeatherMapError ("API error: " ++ ("HTTP " ++ toString status))))
    ∧ (∀ details, (make_request c endpoint params (.response status (.error details))).2
        = .error (.pyOpenWeatherMapError ("API error: " ++ ("HTTP " ++ toString status)))) := by
  refine ⟨?_, ?_, ?_, ?_⟩
  · intro fields m hm
    simp [make_request, h200, h401, h404, h429, hm, pyStr]
  · intro fields hm
    simp [make_request, h200, h401, h404, h429, hm]
  · intro j hj
    cases j with
    | obj fields => exact absurd rfl (hj fields)
    | num v => simp [make_request, h200, h401, h404, h429]
    | str s => simp [make_request, h200, h401, h404, h429]
    | bool b => simp [make_request, h200, h401, h404, h429]
    | null => simp [make_request, h200, h401, h404, h429]
    | arr items => simp [make_request, h200, h401, h404, h429]
  · intro details
    simp [make_request, h200, h401, h404, h429]

/-- C5 witness: status 500 with body containing message "internal" gives
"API error: internal" (the scenario of the spec test list). -/
theorem C5_other_status_api_error_witness :
    (make_request testClient "/weather" []
        (.response 500 (.ok (.obj [("message", Json.str "internal")])))).2
      = .error (.pyOpenWeatherMapError "API error: internal") :=
  (C5_other_status_api_error testClient "/weather" [] 500 (by decide) (by decide)
    (by decide) (by decide)).1 [("message", Json.str "internal")] "internal" rfl

/-- C6: status 401 raises AuthenticationError("Invalid API key"), 404
raises NotFoundError("Location not found"), 429 raises
RateLimitError("API rate limit exceeded"), and a 200 body that is a JSON
object is handed to `from_api_response`, whose result (or failure) is the
result of the call. -/
theorem C6_status_code_mapping (c : Client) (lat lon : Rat) (body : Except String Json)
    (fields : List (String × Json)) :
    (get_current_weather_by_coords c lat lon (.response 401 body)).result
      = .error (.authenticationError "Invalid API key")
    ∧ (get_current_weather_by_coords c lat lon (.response 404 body)).result
      = .error (.notFoundError "Location not found")
    ∧ (get_current_weather_by_coords c lat lon (.response 429 body)).result
      = .error (.rateLimitError "API rate limit exceeded")
    ∧ (get_current_weather_by_coords c lat lon (.response 200 (.ok (.obj fields)))).result
      = from_api_response fields :=
  ⟨rfl, rfl, rfl, rfl⟩

/-- C7: construction resolves the credential as the explicit argument when
it is a non-empty string, else the environment value; it fails with
AuthenticationError exactly when neither channel is truthy, and (for a
recognized unit system) succeeds exactly when one of them is. -/
theorem C7_credential_resolution (api_key env : Option String) (units : String)
    (timeout : Int) :
    (initIsAuthError (clientInit api_key env units timeout) = true
       ↔ (truthyOpt api_key = false ∧ truthyOpt env = false))
    ∧ (units ∈ VALID_UNITS →
        (initIsOk (clientInit api_key env units timeout) = true
          ↔ (truthyOpt api_key = true ∨ truthyOpt env = true))) := by
  have h := truthyOpt_pyOrStr api_key env
  by_cases hu : units ∈ VALID_UNITS <;>
    rcases ha : truthyOpt api_key <;> rcases he : truthyOpt env <;>
      rw [ha, he] at h <;>
      simp [clientInit, h, hu, ha, he, initIsAuthError, initIsOk]

/-- C7 witness: an explicit non-empty key with no environment fallback and
metric units constructs successfully. -/
theorem C7_credential_resolution_witness :
    "metric" ∈ VALID_UNITS
    ∧ initIsOk (clientInit (some "k") none "metric" 10) = true :=
  ⟨by decide,
    ((C7_credential_resolution (some "k") none "metric" 10).2 (by decide)).mpr
      (Or.inl (by decide))⟩

/-- C8 counterexample: a document whose wind block has speed and deg but no
gust key makes the translation fail with KeyError("gust") instead of
succeeding with an unset gust. -/
theorem C8_counterexample_missing_gust_fails :
    from_api_response (docWithBlocks mainFields
        [("speed", Json.num 4.1), ("deg", Json.num 80)] (.arr [weatherItem]))
      = .error (.keyError "gust")
    ∧ exceptIsOk (from_api_response (docWithBlocks mainFields
        [("speed", Json.num 4.1), ("deg", Json.num 80)] (.arr [weatherItem]))) = false :=
  ⟨rfl, rfl⟩

/-- C8 amended: `wind.gust` is required by the translator — for every
choice of speed and deg values, a wind block without a gust key fails with
KeyError("gust"). -/
theorem C8_gust_required_by_translator (s d : Json) :
    from_api_response (docWithBlocks mainFields [("speed", s), ("deg", d)]
        (.arr [weatherItem]))
      = .error (.keyError "gust") :=
  rfl

/-- C9: whatever the transport outcome, a call of
`get_current_weather_by_coords` leaves the configuration fields api_key,
units, timeout and base_url of the client unchanged (the method never
assigns to `self`). -/
theorem C9_call_leaves_client_config_unchanged (c : Client) (lat lon : Rat)
    (outcome : HttpOutcome) :
    (get_current_weather_by_coords c lat lon outcome).client.api_key = c.api_key
    ∧ (get_current_weather_by_coords c lat lon outcome).client.units = c.units
    ∧ (get_current_weather_by_coords c lat lon outcome).client.timeout = c.timeout
    ∧ (get_current_weather_by_coords c lat lon outcome).client.base_url = c.base_url :=
  ⟨rfl, rfl, rfl, rfl⟩

/-- C10: `__init__` validates nothing about the timeout — any value,
negative ones included, is stored verbatim, and every issued request uses
the stored timeout. -/
theorem C10_timeout_unvalidated_stored_verbatim (key : String) (env : Option String)
    (units : String) (timeout : Int) (hk : key.isEmpty = false)
    (hu : units ∈ VALID_UNITS) :
    clientInit (some key) env units timeout
      = .ok { api_key := key, units := units, timeout := timeout, base_url := BASE_URL }
    ∧ ∀ (c : Client) (lat lon : Rat) (outcome : HttpOutcome),
        (get_current_weather_by_coords c lat lon outcome).request.timeout = c.timeout := by
  constructor
  · simp [clientInit, pyOrStr, truthyOpt, hk, hu]
  · intro c lat lon outcome
    rfl

/-- C10 witness: a negative timeout of -3 is accepted and stored. -/
theorem C10_timeout_unvalidated_stored_verbatim_witness :
    clientInit (some "k") none "metric" (-3)
      = .ok { api_key := "k", units := "metric", timeout := -3, base_url := BASE_URL } :=
  (C10_timeout_unvalidated_stored_verbatim "k" none "metric" (-3) (by decide) (by decide)).1

end Owm
